import Mathlib

/-!
Shallow embedding of the apisix-python-client repository
(src/admin.py, src/control.py) and verification of its specification.

The two Python classes `Admin` and `Control` are modelled as immutable
records; their `_make_request` dispatcher is modelled as a function from an
explicit transport oracle (what the `requests` library would do for one
outgoing request) to an outcome recording the Python-level result
(returned JSON value or raised exception), the list of HTTP requests that
were actually issued, and the post-state of the client object.
-/

namespace Apx

/-- JSON values, the payloads of requests and responses. -/
inductive Json where
  | null : Json
  | str (s : String) : Json
  | num (n : Int) : Json
  | bool (b : Bool) : Json
  | arr (xs : List Json) : Json
  | obj (fields : List (String × Json)) : Json

/-- One outgoing HTTP request as handed to the `requests` library:
verb, full URL, headers, and optional JSON body. -/
structure Request where
  verb : String
  url : String
  headers : List (String × String)
  body : Option Json

/-- An HTTP response as seen through the `requests` response object:
status code, reason phrase, raw body text, and the result of `.json()`
(`some` if the raw body parses as JSON, `none` otherwise). -/
structure HttpResponse where
  status : Nat
  reason : String
  rawBody : String
  parsed : Option Json

/-- What the transport does for one issued request: either an HTTP
response comes back, or the `requests` library raises a
`RequestException` at transport level (DNS failure, refused connection,
timeout, TLS failure) carrying a message string. -/
inductive TransportResult where
  | resp (r : HttpResponse) : TransportResult
  | exn (msg : String) : TransportResult

/-- The transport oracle: how the network answers each request. -/
def Transport : Type := Request → TransportResult

/-- Python-level exceptions that `_make_request` and the list helpers can
raise: `ValueError` for an unsupported verb, `ConnectionError` re-raised
from any `requests.exceptions.RequestException`, and `AttributeError`
from calling `.get` on a non-dict. -/
inductive PyError where
  | valueError (msg : String) : PyError
  | connectionError (msg : String) : PyError
  | attributeError (msg : String) : PyError

/-- Outcome of one client-method call: the Python result (normal return
or raised exception), the requests actually issued on the wire, and the
client object's state after the call. -/
structure Outcome (σ : Type) where
  result : Except PyError Json
  issued : List Request
  self : σ

/-- Python `s.lstrip('/')`: drop all leading slash characters. -/
def lstripSlash (s : String) : String :=
  String.mk (s.data.dropWhile (fun c => c == '/'))

/-- Python `s.rstrip('/')`: drop all trailing slash characters. -/
def rstripSlash (s : String) : String :=
  String.mk ((s.data.reverse.dropWhile (fun c => c == '/')).reverse)

/-- Python `s.upper()` on the ASCII method strings used here. -/
def pyUpper (s : String) : String :=
  String.mk (s.data.map Char.toUpper)

/-- The string of the `requests.exceptions.HTTPError` raised by
`response.raise_for_status()` for a 4xx/5xx status. -/
def httpErrorString (status : Nat) (reason : String) (url : String) : String :=
  toString status
    ++ (if status < 500 then " Client Error: " else " Server Error: ")
    ++ reason ++ " for url: " ++ url

/-- The string of the JSON decode error raised by `response.json()` on a
body that is not valid JSON. -/
def jsonDecodeErrorString (_rawBody : String) : String :=
  "Expecting value: line 1 column 1 (char 0)"

/-- The shared tail of `_make_request` after a verb branch was selected:
issue the request, re-raise any `RequestException` (transport failures,
`raise_for_status` on 4xx/5xx, JSON decode failures) as
`ConnectionError("Error connecting to APISIX: " + str(e))`, otherwise
return the parsed JSON body. -/
def finish {σ : Type} (s : σ) (t : Transport) (req : Request) : Outcome σ :=
  match t req with
  | TransportResult.exn msg =>
      ⟨Except.error (PyError.connectionError ("Error connecting to APISIX: " ++ msg)),
       [req], s⟩
  | TransportResult.resp r =>
      if 400 ≤ r.status ∧ r.status < 600 then
        ⟨Except.error (PyError.connectionError
            ("Error connecting to APISIX: " ++ httpErrorString r.status r.reason req.url)),
         [req], s⟩
      else
        match r.parsed with
        | some j => ⟨Except.ok j, [req], s⟩
        | none =>
            ⟨Except.error (PyError.connectionError
                ("Error connecting to APISIX: " ++ jsonDecodeErrorString r.rawBody)),
             [req], s⟩

/-- URL construction in `_make_request`:
`url = f"{self.base_url}/{endpoint.lstrip('/')}"`. -/
def mkUrl (base_url endpoint : String) : String :=
  base_url ++ "/" ++ lstripSlash endpoint

/-- The `Admin` client object: fields set in `Admin.__init__`. -/
structure Admin where
  base_url : String
  api_key : String
  headers : List (String × String)

/-- `Admin.__init__`: strip trailing slashes from the base URL and build
the fixed header map. -/
def Admin.init (base_url api_key : String) : Admin :=
  ⟨rstripSlash base_url, api_key,
   [("Content-Type", "application/json"), ("X-API-KEY", api_key)]⟩

/-- `Admin._make_request`: dispatch on `method.upper()` over
GET/POST/PUT/DELETE/PATCH, raising `ValueError` (uncaught by the
`RequestException` handler) for any other verb before any request is
issued; GET and DELETE are sent without a body. -/
def Admin.make_request (c : Admin) (t : Transport)
    (method endpoint : String) (data : Option Json) : Outcome Admin :=
  if pyUpper method = "GET" then
    finish c t ⟨"GET", mkUrl c.base_url endpoint, c.headers, none⟩
  else if pyUpper method = "POST" then
    finish c t ⟨"POST", mkUrl c.base_url endpoint, c.headers, data⟩
  else if pyUpper method = "PUT" then
    finish c t ⟨"PUT", mkUrl c.base_url endpoint, c.headers, data⟩
  else if pyUpper method = "DELETE" then
    finish c t ⟨"DELETE", mkUrl c.base_url endpoint, c.headers, none⟩
  else if pyUpper method = "PATCH" then
    finish c t ⟨"PATCH", mkUrl c.base_url endpoint, c.headers, data⟩
  else
    ⟨Except.error (PyError.valueError ("Unsupported HTTP method: " ++ method)), [], c⟩

/-- Python `j.get(k, d)`: defined on dicts, `AttributeError` otherwise. -/
def pyGet (j : Json) (k : String) (d : Json) : Except String Json :=
  match j with
  | Json.obj fs =>
      Except.ok (match fs.lookup k with
        | some v => v
        | none => d)
  | _ => Except.error "AttributeError: object has no attribute get"

/-- The envelope unwrapping used by the list methods:
`response.get('node', {}).get('nodes', [])`. -/
def unwrapNodes (response : Json) : Except String Json :=
  match pyGet response "node" (Json.obj []) with
  | Except.error e => Except.error e
  | Except.ok node => pyGet node "nodes" (Json.arr [])

/-- Post-process a `_make_request` result through the envelope
unwrapping, propagating a raised exception unchanged. -/
def listResult (r : Except PyError Json) : Except PyError Json :=
  match r with
  | Except.error e => Except.error e
  | Except.ok response =>
      match unwrapNodes response with
      | Except.ok v => Except.ok v
      | Except.error m => Except.error (PyError.attributeError m)

/-- `Admin.list_routes`. -/
def Admin.list_routes (c : Admin) (t : Transport) : Outcome Admin :=
  let o := c.make_request t "GET" "/routes" none
  ⟨listResult o.result, o.issued, o.self⟩

/-- `Admin.get_route`. -/
def Admin.get_route (c : Admin) (t : Transport) (route_id : String) : Outcome Admin :=
  c.make_request t "GET" ("/routes/" ++ route_id) none

/-- `Admin.create_route` with its optional `ttl` query parameter. -/
def Admin.create_route (c : Admin) (t : Transport)
    (route_config : Json) (ttl : Option Int) : Outcome Admin :=
  match ttl with
  | some n => c.make_request t "POST" ("/routes?ttl=" ++ toString n) (some route_config)
  | none => c.make_request t "POST" "/routes" (some route_config)

/-- `Admin.update_route` with its optional `ttl` query parameter. -/
def Admin.update_route (c : Admin) (t : Transport)
    (route_id : String) (route_config : Json) (ttl : Option Int) : Outcome Admin :=
  match ttl with
  | some n =>
      c.make_request t "PATCH" ("/routes/" ++ route_id ++ "?ttl=" ++ toString n)
        (some route_config)
  | none => c.make_request t "PATCH" ("/routes/" ++ route_id) (some route_config)

/-- `Admin.update_route_with_path` with its optional `ttl` query parameter. -/
def Admin.update_route_with_path (c : Admin) (t : Transport)
    (route_id route_path : String) (route_config : Json) (ttl : Option Int) : Outcome Admin :=
  match ttl with
  | some n =>
      c.make_request t "PATCH"
        ("/routes/" ++ route_id ++ "/" ++ route_path ++ "?ttl=" ++ toString n)
        (some route_config)
  | none =>
      c.make_request t "PATCH" ("/routes/" ++ route_id ++ "/" ++ route_path)
        (some route_config)

/-- `Admin.create_route_with_id` with its optional `ttl` query parameter. -/
def Admin.create_route_with_id (c : Admin) (t : Transport)
    (route_id : String) (route_config : Json) (ttl : Option Int) : Outcome Admin :=
  match ttl with
  | some n =>
      c.make_request t "PUT" ("/routes/" ++ route_id ++ "?ttl=" ++ toString n)
        (some route_config)
  | none => c.make_request t "PUT" ("/routes/" ++ route_id) (some route_config)

/-- `Admin.delete_route`. -/
def Admin.delete_route (c : Admin) (t : Transport) (route_id : String) : Outcome Admin :=
  c.make_request t "DELETE" ("/routes/" ++ route_id) none

/-- `Admin.list_services`. -/
def Admin.list_services (c : Admin) (t : Transport) : Outcome Admin :=
  let o := c.make_request t "GET" "/services" none
  ⟨listResult o.result, o.issued, o.self⟩

/-- `Admin.list_consumers`. -/
def Admin.list_consumers (c : Admin) (t : Transport) : Outcome Admin :=
  let o := c.make_request t "GET" "/consumers" none
  ⟨listResult o.result, o.issued, o.self⟩

/-- `Admin.list_consumer_credentials`: unlike the other list methods,
the source returns `self._make_request(...)` directly, with no
envelope unwrapping. -/
def Admin.list_consumer_credentials (c : Admin) (t : Transport)
    (username : String) : Outcome Admin :=
  c.make_request t "GET" ("/consumers/" ++ username ++ "/credentials") none

/-- `Admin.list_upstreams`. -/
def Admin.list_upstreams (c : Admin) (t : Transport) : Outcome Admin :=
  let o := c.make_request t "GET" "/upstreams" none
  ⟨listResult o.result, o.issued, o.self⟩

/-- `Admin.list_ssl`. -/
def Admin.list_ssl (c : Admin) (t : Transport) : Outcome Admin :=
  let o := c.make_request t "GET" "/ssl" none
  ⟨listResult o.result, o.issued, o.self⟩

/-- `Admin.list_global_rules`. -/
def Admin.list_global_rules (c : Admin) (t : Transport) : Outcome Admin :=
  let o := c.make_request t "GET" "/global_rules" none
  ⟨listResult o.result, o.issued, o.self⟩

/-- `Admin.list_consumer_groups`. -/
def Admin.list_consumer_groups (c : Admin) (t : Transport) : Outcome Admin :=
  let o := c.make_request t "GET" "/consumer_groups" none
  ⟨listResult o.result, o.issued, o.self⟩

/-- `Admin.list_plugin_configs`. -/
def Admin.list_plugin_configs (c : Admin) (t : Transport) : Outcome Admin :=
  let o := c.make_request t "GET" "/plugin_configs" none
  ⟨listResult o.result, o.issued, o.self⟩

/-- `Admin.list_plugins`. -/
def Admin.list_plugins (c : Admin) (t : Transport) : Outcome Admin :=
  let o := c.make_request t "GET" "/plugins/list" none
  ⟨listResult o.result, o.issued, o.self⟩

/-- `Admin.list_stream_routes`. -/
def Admin.list_stream_routes (c : Admin) (t : Transport) : Outcome Admin :=
  let o := c.make_request t "GET" "/stream_routes" none
  ⟨listResult o.result, o.issued, o.self⟩

/-- `Admin.list_secrets`. -/
def Admin.list_secrets (c : Admin) (t : Transport) : Outcome Admin :=
  let o := c.make_request t "GET" "/secrets" none
  ⟨listResult o.result, o.issued, o.self⟩

/-- `Admin.list_protos`. -/
def Admin.list_protos (c : Admin) (t : Transport) : Outcome Admin :=
  let o := c.make_request t "GET" "/protos" none
  ⟨listResult o.result, o.issued, o.self⟩

/-- The `Control` client object: fields set in `Control.__init__`. -/
structure Control where
  base_url : String
  api_key : String
  headers : List (String × String)

/-- `Control.__init__`: identical normalisation to `Admin.__init__`. -/
def Control.init (base_url api_key : String) : Control :=
  ⟨rstripSlash base_url, api_key,
   [("Content-Type", "application/json"), ("X-API-KEY", api_key)]⟩

/-- `Control._make_request`: dispatch on `method.upper()` over
GET/POST/PUT only, raising `ValueError` for any other verb before any
request is issued. -/
def Control.make_request (c : Control) (t : Transport)
    (method endpoint : String) (data : Option Json) : Outcome Control :=
  if pyUpper method = "GET" then
    finish c t ⟨"GET", mkUrl c.base_url endpoint, c.headers, none⟩
  else if pyUpper method = "POST" then
    finish c t ⟨"POST", mkUrl c.base_url endpoint, c.headers, data⟩
  else if pyUpper method = "PUT" then
    finish c t ⟨"PUT", mkUrl c.base_url endpoint, c.headers, data⟩
  else
    ⟨Except.error (PyError.valueError ("Unsupported HTTP method: " ++ method)), [], c⟩

/-- `Control.list_routes`. -/
def Control.list_routes (c : Control) (t : Transport) : Outcome Control :=
  let o := c.make_request t "GET" "/routes" none
  ⟨listResult o.result, o.issued, o.self⟩

/-- `Control.get_route` (note the singular `/route/` path in the source). -/
def Control.get_route (c : Control) (t : Transport) (route_id : String) : Outcome Control :=
  c.make_request t "GET" ("/route/" ++ route_id) none

/-- Does `p` occur at the start of `l`? -/
def isPre (p l : List Char) : Bool :=
  match p, l with
  | [], _ => true
  | _ :: _, [] => false
  | a :: ps, b :: ls => a == b && isPre ps ls

/-- Does `p` occur as a contiguous sublist of `l`? -/
def hasSub (p l : List Char) : Bool :=
  match l with
  | [] => p.isEmpty
  | b :: ls => isPre p (b :: ls) || hasSub p ls

/-- `pat` occurs as a substring of `s`. -/
def strContains (s pat : String) : Bool :=
  hasSub pat.data s.data

/-- `s` does not begin with a slash character. -/
def noLeadingSlash (s : String) : Prop :=
  ∀ tl : List Char, s.data ≠ '/' :: tl

/-- `s` does not end with a slash character. -/
def noTrailingSlash (s : String) : Prop :=
  ∀ tl : List Char, s.data ≠ tl ++ ['/']

/-- A transport that answers every request with status 200, reason OK,
and the given parsed JSON body. -/
def const200 (j : Json) : Transport :=
  fun _ => TransportResult.resp ⟨200, "OK", "", some j⟩

/-- The collection-list response envelope with the given inner list. -/
def envelope (xs : List Json) : Json :=
  Json.obj [("node", Json.obj [("nodes", Json.arr xs)])]

theorem isPre_iff (p l : List Char) : isPre p l = true ↔ ∃ b, l = p ++ b := by
  induction p generalizing l with
  | nil => simp [isPre]
  | cons a ps ih =>
    cases l with
    | nil => simp [isPre]
    | cons b ls =>
      simp only [isPre, Bool.and_eq_true, beq_iff_eq, ih, List.cons_append, List.cons.injEq]
      constructor
      · rintro ⟨rfl, tl, rfl⟩
        exact ⟨tl, rfl, rfl⟩
      · rintro ⟨tl, rfl, rfl⟩
        exact ⟨rfl, tl, rfl⟩

theorem hasSub_iff (p l : List Char) : hasSub p l = true ↔ ∃ a b, l = a ++ p ++ b := by
  induction l with
  | nil =>
    simp only [hasSub, List.isEmpty_iff]
    constructor
    · rintro rfl
      exact ⟨[], [], rfl⟩
    · rintro ⟨a, b, h⟩
      rcases List.append_eq_nil.mp (List.append_eq_nil.mp h.symm).1 with ⟨_, h2⟩
      exact h2
  | cons x ls ih =>
    simp only [hasSub, Bool.or_eq_true, isPre_iff, ih]
    constructor
    · rintro (⟨b, hb⟩ | ⟨a, b, hb⟩)
      · exact ⟨[], b, by simp [hb]⟩
      · exact ⟨x :: a, b, by simp [hb]⟩
    · rintro ⟨a, b, hb⟩
      cases a with
      | nil => exact Or.inl ⟨b, by simpa using hb⟩
      | cons y ys =>
        simp only [List.cons_append, List.cons.injEq] at hb
        exact Or.inr ⟨ys, b, hb.2⟩

theorem hasSub_single (c : Char) (l : List Char) : hasSub [c] l = true ↔ c ∈ l := by
  rw [hasSub_iff]
  constructor
  · rintro ⟨a, b, rfl⟩
    simp
  · intro h
    rcases List.append_of_mem h with ⟨s, tl, rfl⟩
    exact ⟨s, tl, by simp⟩

theorem dropWhile_no_head (l : List Char) (tl : List Char) :
    l.dropWhile (fun c => c == '/') ≠ '/' :: tl := by
  induction l with
  | nil => simp [List.dropWhile]
  | cons a ls ih =>
    rw [List.dropWhile_cons]
    by_cases h : a = '/'
    · simpa [h] using ih
    · simp [h]

theorem lstripSlash_noLeadingSlash (s : String) : noLeadingSlash (lstripSlash s) := by
  intro tl
  simpa [lstripSlash] using dropWhile_no_head s.data tl

theorem rstripSlash_noTrailingSlash (s : String) : noTrailingSlash (rstripSlash s) := by
  intro tl h
  simp only [rstripSlash] at h
  have h2 : (s.data.reverse.dropWhile (fun c => c == '/')).reverse = tl ++ ['/'] := h
  have h3 : s.data.reverse.dropWhile (fun c => c == '/') = '/' :: tl.reverse := by
    have := congrArg List.reverse h2
    simpa using this
  exact dropWhile_no_head _ _ h3

theorem finish_self {σ : Type} (s : σ) (t : Transport) (req : Request) :
    (finish s t req).self = s := by
  unfold finish
  cases t req with
  | exn msg => rfl
  | resp r =>
    by_cases h : 400 ≤ r.status ∧ r.status < 600
    · simp [h]
    · cases hp : r.parsed <;> simp [h, hp]

theorem finish_issued {σ : Type} (s : σ) (t : Transport) (req : Request) :
    (finish s t req).issued = [req] := by
  unfold finish
  cases t req with
  | exn msg => rfl
  | resp r =>
    by_cases h : 400 ≤ r.status ∧ r.status < 600
    · simp [h]
    · cases hp : r.parsed <;> simp [h, hp]

theorem finish_exn {σ : Type} (s : σ) (t : Transport) (req : Request) (msg : String)
    (h : t req = TransportResult.exn msg) :
    finish s t req =
      ⟨Except.error (PyError.connectionError ("Error connecting to APISIX: " ++ msg)),
       [req], s⟩ := by
  unfold finish
  rw [h]

theorem finish_status {σ : Type} (s : σ) (t : Transport) (req : Request) (r : HttpResponse)
    (h : t req = TransportResult.resp r) (h4 : 400 ≤ r.status) (h6 : r.status < 600) :
    finish s t req =
      ⟨Except.error (PyError.connectionError
          ("Error connecting to APISIX: " ++ httpErrorString r.status r.reason req.url)),
       [req], s⟩ := by
  unfold finish
  rw [h]
  simp [h4, h6]

theorem finish_ok {σ : Type} (s : σ) (t : Transport) (req : Request) (r : HttpResponse)
    (j : Json) (h : t req = TransportResult.resp r)
    (hs : ¬(400 ≤ r.status ∧ r.status < 600)) (hp : r.parsed = some j) :
    finish s t req = ⟨Except.ok j, [req], s⟩ := by
  unfold finish
  rw [h]
  simp [hs, hp]

theorem Admin.make_request_get (c : Admin) (t : Transport) (method endpoint : String)
    (data : Option Json) (h : pyUpper method = "GET") :
    Admin.make_request c t method endpoint data =
      finish c t ⟨"GET", mkUrl c.base_url endpoint, c.headers, none⟩ := by
  unfold Admin.make_request
  rw [h, if_pos rfl]

theorem Admin.make_request_post (c : Admin) (t : Transport) (method endpoint : String)
    (data : Option Json) (h : pyUpper method = "POST") :
    Admin.make_request c t method endpoint data =
      finish c t ⟨"POST", mkUrl c.base_url endpoint, c.headers, data⟩ := by
  unfold Admin.make_request
  rw [h, if_neg (by decide), if_pos rfl]

theorem Admin.make_request_put (c : Admin) (t : Transport) (method endpoint : String)
    (data : Option Json) (h : pyUpper method = "PUT") :
    Admin.make_request c t method endpoint data =
      finish c t ⟨"PUT", mkUrl c.base_url endpoint, c.headers, data⟩ := by
  unfold Admin.make_request
  rw [h, if_neg (by decide), if_neg (by decide), if_pos rfl]

theorem Admin.make_request_delete (c : Admin) (t : Transport) (method endpoint : String)
    (data : Option Json) (h : pyUpper method = "DELETE") :
    Admin.make_request c t method endpoint data =
      finish c t ⟨"DELETE", mkUrl c.base_url endpoint, c.headers, none⟩ := by
  unfold Admin.make_request
  rw [h, if_neg (by decide), if_neg (by decide), if_neg (by decide), if_pos rfl]

theorem Admin.make_request_patch (c : Admin) (t : Transport) (method endpoint : String)
    (data : Option Json) (h : pyUpper method = "PATCH") :
    Admin.make_request c t method endpoint data =
      finish c t ⟨"PATCH", mkUrl c.base_url endpoint, c.headers, data⟩ := by
  unfold Admin.make_request
  rw [h, if_neg (by decide), if_neg (by decide), if_neg (by decide), if_neg (by decide),
    if_pos rfl]

theorem Admin.make_request_self (c : Admin) (t : Transport) (method endpoint : String)
    (data : Option Json) :
    (Admin.make_request c t method endpoint data).self = c := by
  unfold Admin.make_request
  repeat' split
  all_goals first | exact finish_self _ _ _ | rfl

theorem control_mkreq_get (c : Control) (t : Transport) (method endpoint : String)
    (data : Option Json) (h : pyUpper method = "GET") :
    Control.make_request c t method endpoint data =
      finish c t ⟨"GET", mkUrl c.base_url endpoint, c.headers, none⟩ := by
  unfold Control.make_request
  rw [h, if_pos rfl]

theorem control_mkreq_post (c : Control) (t : Transport) (method endpoint : String)
    (data : Option Json) (h : pyUpper method = "POST") :
    Control.make_request c t method endpoint data =
      finish c t ⟨"POST", mkUrl c.base_url endpoint, c.headers, data⟩ := by
  unfold Control.make_request
  rw [h, if_neg (by decide), if_pos rfl]

theorem control_mkreq_put (c : Control) (t : Transport) (method endpoint : String)
    (data : Option Json) (h : pyUpper method = "PUT") :
    Control.make_request c t method endpoint data =
      finish c t ⟨"PUT", mkUrl c.base_url endpoint, c.headers, data⟩ := by
  unfold Control.make_request
  rw [h, if_neg (by decide), if_neg (by decide), if_pos rfl]

theorem control_mkreq_self (c : Control) (t : Transport) (method endpoint : String)
    (data : Option Json) :
    (Control.make_request c t method endpoint data).self = c := by
  unfold Control.make_request
  repeat' split
  all_goals first | exact finish_self _ _ _ | rfl

theorem Admin.list_routes_result (c : Admin) (j : Json) :
    (Admin.list_routes c (const200 j)).result = listResult (Except.ok j) := by
  unfold Admin.list_routes
  rw [Admin.make_request_get c (const200 j) "GET" "/routes" none rfl,
    finish_ok c (const200 j) _ ⟨200, "OK", "", some j⟩ j rfl (by simp) rfl]

theorem control_list_routes_result (c : Control) (j : Json) :
    (Control.list_routes c (const200 j)).result = listResult (Except.ok j) := by
  unfold Control.list_routes
  rw [control_mkreq_get c (const200 j) "GET" "/routes" none rfl,
    finish_ok c (const200 j) _ ⟨200, "OK", "", some j⟩ j rfl (by simp) rfl]

theorem listResult_envelope (xs : List Json) :
    listResult (Except.ok (envelope xs)) = Except.ok (Json.arr xs) := rfl

theorem listResult_no_node (fs : List (String × Json)) (h : fs.lookup "node" = none) :
    listResult (Except.ok (Json.obj fs)) = Except.ok (Json.arr []) := by
  simp [listResult, unwrapNodes, pyGet, h]

theorem listResult_no_nodes (gs : List (String × Json)) (h : gs.lookup "nodes" = none) :
    listResult (Except.ok (Json.obj [("node", Json.obj gs)])) = Except.ok (Json.arr []) := by
  simp [listResult, unwrapNodes, pyGet, h]

/-- Claim C5: on a parsed body `{"node":{"nodes":[...]}}` the list
operations (`Admin.list_routes`, `Control.list_routes`) return the inner
list unchanged and in order; when the envelope is absent — the body is
`{}`, or lacks the `node` key, or its `node` object lacks the `nodes`
key — they return the empty sequence and do not raise. -/
theorem claim_c5 (c : Admin) (c2 : Control) (xs : List Json)
    (fs gs : List (String × Json)) :
    ((Admin.list_routes c (const200 (envelope xs))).result = Except.ok (Json.arr xs) ∧
     (Control.list_routes c2 (const200 (envelope xs))).result = Except.ok (Json.arr xs)) ∧
    ((Admin.list_routes c (const200 (Json.obj []))).result = Except.ok (Json.arr []) ∧
     (Control.list_routes c2 (const200 (Json.obj []))).result = Except.ok (Json.arr [])) ∧
    (fs.lookup "node" = none →
      (Admin.list_routes c (const200 (Json.obj fs))).result = Except.ok (Json.arr []) ∧
      (Control.list_routes c2 (const200 (Json.obj fs))).result = Except.ok (Json.arr [])) ∧
    (gs.lookup "nodes" = none →
      (Admin.list_routes c (const200 (Json.obj [("node", Json.obj gs)]))).result
          = Except.ok (Json.arr []) ∧
      (Control.list_routes c2 (const200 (Json.obj [("node", Json.obj gs)]))).result
          = Except.ok (Json.arr [])) := by
  refine ⟨⟨?_, ?_⟩, ⟨?_, ?_⟩, fun h => ⟨?_, ?_⟩, fun h => ⟨?_, ?_⟩⟩
  · rw [Admin.list_routes_result, listResult_envelope]
  · rw [control_list_routes_result, listResult_envelope]
  · rw [Admin.list_routes_result]
    rfl
  · rw [control_list_routes_result]
    rfl
  · rw [Admin.list_routes_result, listResult_no_node fs h]
  · rw [control_list_routes_result, listResult_no_node fs h]
  · rw [Admin.list_routes_result, listResult_no_nodes gs h]
  · rw [control_list_routes_result, listResult_no_nodes gs h]

/-- Witness for C5 at concrete inputs. -/
theorem claim_c5_witness :
    ((Admin.list_routes (Admin.init "http://h" "k")
        (const200 (envelope [Json.obj [("id", Json.str "1")], Json.obj [("id", Json.str "2")]]))).result
        = Except.ok (Json.arr [Json.obj [("id", Json.str "1")], Json.obj [("id", Json.str "2")]]) ∧
     (Control.list_routes (Control.init "http://h" "k")
        (const200 (envelope [Json.obj [("id", Json.str "1")], Json.obj [("id", Json.str "2")]]))).result
        = Except.ok (Json.arr [Json.obj [("id", Json.str "1")], Json.obj [("id", Json.str "2")]])) ∧
    ((Admin.list_routes (Admin.init "http://h" "k") (const200 (Json.obj []))).result
        = Except.ok (Json.arr []) ∧
     (Control.list_routes (Control.init "http://h" "k") (const200 (Json.obj []))).result
        = Except.ok (Json.arr [])) ∧
    ((Admin.list_routes (Admin.init "http://h" "k")
        (const200 (Json.obj [("action", Json.str "get")]))).result = Except.ok (Json.arr []) ∧
     (Control.list_routes (Control.init "http://h" "k")
        (const200 (Json.obj [("action", Json.str "get")]))).result = Except.ok (Json.arr [])) ∧
    ((Admin.list_routes (Admin.init "http://h" "k")
        (const200 (Json.obj [("node", Json.obj [("key", Json.str "/routes")])]))).result
        = Except.ok (Json.arr []) ∧
     (Control.list_routes (Control.init "http://h" "k")
        (const200 (Json.obj [("node", Json.obj [("key", Json.str "/routes")])]))).result
        = Except.ok (Json.arr [])) := by
  have h := claim_c5 (Admin.init "http://h" "k") (Control.init "http://h" "k")
    [Json.obj [("id", Json.str "1")], Json.obj [("id", Json.str "2")]]
    [("action", Json.str "get")] [("key", Json.str "/routes")]
  exact ⟨h.1, h.2.1, h.2.2.1 rfl, h.2.2.2 rfl⟩

/-- Claim C6: for every verb string whose uppercasing is outside the set
the dispatcher supports (GET/POST/PUT/DELETE/PATCH for `Admin`,
GET/POST/PUT for `Control`), `_make_request` raises
`ValueError("Unsupported HTTP method: ...")` and no HTTP request of any
kind is issued. -/
theorem claim_c6 (c : Admin) (c2 : Control) (t : Transport)
    (method endpoint : String) (data : Option Json) :
    (pyUpper method ∉ (["GET", "POST", "PUT", "DELETE", "PATCH"] : List String) →
      Admin.make_request c t method endpoint data =
        ⟨Except.error (PyError.valueError ("Unsupported HTTP method: " ++ method)), [], c⟩) ∧
    (pyUpper method ∉ (["GET", "POST", "PUT"] : List String) →
      Control.make_request c2 t method endpoint data =
        ⟨Except.error (PyError.valueError ("Unsupported HTTP method: " ++ method)), [], c2⟩) := by
  constructor
  · intro h
    simp only [List.mem_cons, List.not_mem_nil, or_false, not_or] at h
    obtain ⟨h1, h2, h3, h4, h5⟩ := h
    unfold Admin.make_request
    rw [if_neg h1, if_neg h2, if_neg h3, if_neg h4, if_neg h5]
  · intro h
    simp only [List.mem_cons, List.not_mem_nil, or_false, not_or] at h
    obtain ⟨h1, h2, h3⟩ := h
    unfold Control.make_request
    rw [if_neg h1, if_neg h2, if_neg h3]

/-- Witness for C6: the verb `HEAD` is rejected by both dispatchers with
no request issued. -/
theorem claim_c6_witness :
    Admin.make_request (Admin.init "http://h" "k") (fun _ => TransportResult.exn "e")
        "HEAD" "/routes" none =
      ⟨Except.error (PyError.valueError ("Unsupported HTTP method: " ++ "HEAD")), [],
       Admin.init "http://h" "k"⟩ ∧
    Control.make_request (Control.init "http://h" "k") (fun _ => TransportResult.exn "e")
        "HEAD" "/routes" none =
      ⟨Except.error (PyError.valueError ("Unsupported HTTP method: " ++ "HEAD")), [],
       Control.init "http://h" "k"⟩ := by
  have h := claim_c6 (Admin.init "http://h" "k") (Control.init "http://h" "k")
    (fun _ => TransportResult.exn "e") "HEAD" "/routes" none
  exact ⟨h.1 (by decide), h.2 (by decide)⟩

/-- Claim C9: the client configuration (`base_url`, `api_key`,
`headers`) is fixed at construction: after any call to `_make_request`
or to any of the modelled public methods, with any transport behaviour
and any outcome, the client object equals its pre-call value. -/
theorem claim_c9 (c : Admin) (c2 : Control) (t : Transport)
    (method endpoint username route_id route_path : String) (data : Option Json)
    (cfg : Json) (ttl : Option Int) :
    (Admin.make_request c t method endpoint data).self = c ∧
    (Admin.list_routes c t).self = c ∧
    (Admin.get_route c t route_id).self = c ∧
    (Admin.create_route c t cfg ttl).self = c ∧
    (Admin.update_route c t route_id cfg ttl).self = c ∧
    (Admin.update_route_with_path c t route_id route_path cfg ttl).self = c ∧
    (Admin.create_route_with_id c t route_id cfg ttl).self = c ∧
    (Admin.delete_route c t route_id).self = c ∧
    (Admin.list_services c t).self = c ∧
    (Admin.list_consumers c t).self = c ∧
    (Admin.list_consumer_credentials c t username).self = c ∧
    (Admin.list_upstreams c t).self = c ∧
    (Admin.list_ssl c t).self = c ∧
    (Admin.list_global_rules c t).self = c ∧
    (Admin.list_consumer_groups c t).self = c ∧
    (Admin.list_plugin_configs c t).self = c ∧
    (Admin.list_plugins c t).self = c ∧
    (Admin.list_stream_routes c t).self = c ∧
    (Admin.list_secrets c t).self = c ∧
    (Admin.list_protos c t).self = c ∧
    (Control.make_request c2 t method endpoint data).self = c2 ∧
    (Control.list_routes c2 t).self = c2 ∧
    (Control.get_route c2 t route_id).self = c2 := by
  cases ttl <;>
    exact ⟨Admin.make_request_self .., Admin.make_request_self ..,
      Admin.make_request_self .., Admin.make_request_self .., Admin.make_request_self ..,
      Admin.make_request_self .., Admin.make_request_self .., Admin.make_request_self ..,
      Admin.make_request_self .., Admin.make_request_self .., Admin.make_request_self ..,
      Admin.make_request_self .., Admin.make_request_self .., Admin.make_request_self ..,
      Admin.make_request_self .., Admin.make_request_self .., Admin.make_request_self ..,
      Admin.make_request_self .., Admin.make_request_self .., Admin.make_request_self ..,
      control_mkreq_self .., control_mkreq_self .., control_mkreq_self ..⟩

theorem hasSub_self (p : List Char) : hasSub p p = true :=
  (hasSub_iff p p).mpr ⟨[], [], by simp⟩

theorem hasSub_append_left (p m l : List Char) (h : hasSub p l = true) :
    hasSub p (m ++ l) = true := by
  rcases (hasSub_iff p l).mp h with ⟨a, b, rfl⟩
  exact (hasSub_iff p _).mpr ⟨m ++ a, b, by simp⟩

/-- `"?"` occurs in `s` iff the character `?` occurs in `s.data`. -/
theorem strQ_false (s : String) (h : ('?' : Char) ∉ s.data) : strContains s "?" = false := by
  cases hq : strContains s "?" with
  | false => rfl
  | true => exact absurd ((hasSub_single '?' s.data).mp hq) h

/-- Claim C8: for every ttl-supporting create/update operation
(`create_route`, `update_route`, `update_route_with_path`,
`create_route_with_id`), supplying `ttl = n` makes the resolved URL end
in — and hence contain — the query string `?ttl=n`, while supplying no
ttl yields a URL with no `?` at all (provided the base URL and the
caller-supplied path segments contain none, as a URL query requires). -/
theorem claim_c8 (c : Admin) (t : Transport) (cfg : Json) (rid rpath : String) (n : Int) :
    ((Admin.create_route c t cfg (some n)).issued =
        [⟨"POST", mkUrl c.base_url ("/routes?ttl=" ++ toString n), c.headers, some cfg⟩] ∧
      strContains (mkUrl c.base_url ("/routes?ttl=" ++ toString n))
        ("?ttl=" ++ toString n) = true) ∧
    ((Admin.update_route c t rid cfg (some n)).issued =
        [⟨"PATCH", mkUrl c.base_url ("/routes/" ++ rid ++ "?ttl=" ++ toString n),
          c.headers, some cfg⟩] ∧
      strContains (mkUrl c.base_url ("/routes/" ++ rid ++ "?ttl=" ++ toString n))
        ("?ttl=" ++ toString n) = true) ∧
    ((Admin.update_route_with_path c t rid rpath cfg (some n)).issued =
        [⟨"PATCH", mkUrl c.base_url ("/routes/" ++ rid ++ "/" ++ rpath ++ "?ttl=" ++ toString n),
          c.headers, some cfg⟩] ∧
      strContains (mkUrl c.base_url ("/routes/" ++ rid ++ "/" ++ rpath ++ "?ttl=" ++ toString n))
        ("?ttl=" ++ toString n) = true) ∧
    ((Admin.create_route_with_id c t rid cfg (some n)).issued =
        [⟨"PUT", mkUrl c.base_url ("/routes/" ++ rid ++ "?ttl=" ++ toString n),
          c.headers, some cfg⟩] ∧
      strContains (mkUrl c.base_url ("/routes/" ++ rid ++ "?ttl=" ++ toString n))
        ("?ttl=" ++ toString n) = true) ∧
    (('?' : Char) ∉ c.base_url.data →
      ((Admin.create_route c t cfg none).issued =
          [⟨"POST", mkUrl c.base_url "/routes", c.headers, some cfg⟩] ∧
        strContains (mkUrl c.base_url "/routes") "?" = false) ∧
      (('?' : Char) ∉ rid.data →
        ((Admin.update_route c t rid cfg none).issued =
            [⟨"PATCH", mkUrl c.base_url ("/routes/" ++ rid), c.headers, some cfg⟩] ∧
          (Admin.create_route_with_id c t rid cfg none).issued =
            [⟨"PUT", mkUrl c.base_url ("/routes/" ++ rid), c.headers, some cfg⟩] ∧
          strContains (mkUrl c.base_url ("/routes/" ++ rid)) "?" = false) ∧
        (('?' : Char) ∉ rpath.data →
          (Admin.update_route_with_path c t rid rpath cfg none).issued =
            [⟨"PATCH", mkUrl c.base_url ("/routes/" ++ rid ++ "/" ++ rpath),
              c.headers, some cfg⟩] ∧
          strContains (mkUrl c.base_url ("/routes/" ++ rid ++ "/" ++ rpath)) "?" = false))) := by
  refine ⟨⟨finish_issued c t _, ?_⟩, ⟨finish_issued c t _, ?_⟩,
    ⟨finish_issued c t _, ?_⟩, ⟨finish_issued c t _, ?_⟩,
    fun hb => ⟨⟨finish_issued c t _, ?_⟩,
      fun hr => ⟨⟨finish_issued c t _, finish_issued c t _, ?_⟩,
        fun hp => ⟨finish_issued c t _, ?_⟩⟩⟩⟩
  · unfold strContains
    rw [hasSub_iff]
    refine ⟨(c.base_url.data ++ ['/']) ++ "routes".data, [], ?_⟩
    have hd : (mkUrl c.base_url ("/routes?ttl=" ++ toString n)).data =
        (c.base_url.data ++ ['/']) ++ ("routes".data ++ ("?ttl=".data ++ (toString n).data)) :=
      rfl
    rw [hd]
    simp [String.data_append, List.append_assoc]
  · unfold strContains
    rw [hasSub_iff]
    refine ⟨(c.base_url.data ++ ['/']) ++ ("routes/".data ++ rid.data), [], ?_⟩
    have hd : (mkUrl c.base_url ("/routes/" ++ rid ++ "?ttl=" ++ toString n)).data =
        (c.base_url.data ++ ['/']) ++
          ((("routes/".data ++ rid.data) ++ "?ttl=".data) ++ (toString n).data) :=
      rfl
    rw [hd]
    simp [String.data_append, List.append_assoc]
  · unfold strContains
    rw [hasSub_iff]
    refine ⟨(c.base_url.data ++ ['/']) ++ (("routes/".data ++ rid.data) ++ ('/' :: rpath.data)),
      [], ?_⟩
    have hd : (mkUrl c.base_url ("/routes/" ++ rid ++ "/" ++ rpath ++ "?ttl=" ++ toString n)).data =
        (c.base_url.data ++ ['/']) ++
          ((((("routes/".data ++ rid.data) ++ ['/']) ++ rpath.data) ++ "?ttl=".data) ++
            (toString n).data) :=
      rfl
    rw [hd]
    simp [String.data_append, List.append_assoc]
  · unfold strContains
    rw [hasSub_iff]
    refine ⟨(c.base_url.data ++ ['/']) ++ ("routes/".data ++ rid.data), [], ?_⟩
    have hd : (mkUrl c.base_url ("/routes/" ++ rid ++ "?ttl=" ++ toString n)).data =
        (c.base_url.data ++ ['/']) ++
          ((("routes/".data ++ rid.data) ++ "?ttl=".data) ++ (toString n).data) :=
      rfl
    rw [hd]
    simp [String.data_append, List.append_assoc]
  · apply strQ_false
    intro hmem
    have hd : (mkUrl c.base_url "/routes").data =
        (c.base_url.data ++ ['/']) ++ "routes".data := rfl
    rw [hd] at hmem
    simp only [List.mem_append] at hmem
    rcases hmem with (hmem | hmem) | hmem
    · exact hb hmem
    · exact absurd hmem (by decide)
    · exact absurd hmem (by decide)
  · apply strQ_false
    intro hmem
    have hd : (mkUrl c.base_url ("/routes/" ++ rid)).data =
        (c.base_url.data ++ ['/']) ++ ("routes/".data ++ rid.data) := rfl
    rw [hd] at hmem
    simp only [List.mem_append] at hmem
    rcases hmem with (hmem | hmem) | hmem | hmem
    · exact hb hmem
    · exact absurd hmem (by decide)
    · exact absurd hmem (by decide)
    · exact hr hmem
  · apply strQ_false
    intro hmem
    have hd : (mkUrl c.base_url ("/routes/" ++ rid ++ "/" ++ rpath)).data =
        (c.base_url.data ++ ['/']) ++
          ((("routes/".data ++ rid.data) ++ ['/']) ++ rpath.data) := rfl
    rw [hd] at hmem
    simp only [List.mem_append] at hmem
    rcases hmem with (hmem | hmem) | ((hmem | hmem) | hmem) | hmem
    · exact hb hmem
    · exact absurd hmem (by decide)
    · exact absurd hmem (by decide)
    · exact hr hmem
    · exact absurd hmem (by decide)
    · exact hp hmem

/-- Witness for C8 at ttl = 60 and concrete identifiers. -/
theorem claim_c8_witness :
    (Admin.create_route (Admin.init "http://h" "k") (const200 (Json.obj []))
        (Json.obj []) (some 60)).issued =
      [⟨"POST", mkUrl (Admin.init "http://h" "k").base_url ("/routes?ttl=" ++ toString (60 : Int)),
        (Admin.init "http://h" "k").headers, some (Json.obj [])⟩] ∧
    strContains (mkUrl (Admin.init "http://h" "k").base_url ("/routes?ttl=" ++ toString (60 : Int)))
      ("?ttl=" ++ toString (60 : Int)) = true ∧
    (Admin.create_route (Admin.init "http://h" "k") (const200 (Json.obj []))
        (Json.obj []) none).issued =
      [⟨"POST", mkUrl (Admin.init "http://h" "k").base_url "/routes",
        (Admin.init "http://h" "k").headers, some (Json.obj [])⟩] ∧
    strContains (mkUrl (Admin.init "http://h" "k").base_url "/routes") "?" = false ∧
    (Admin.update_route (Admin.init "http://h" "k") (const200 (Json.obj [])) "r1"
        (Json.obj []) none).issued =
      [⟨"PATCH", mkUrl (Admin.init "http://h" "k").base_url ("/routes/" ++ "r1"),
        (Admin.init "http://h" "k").headers, some (Json.obj [])⟩] ∧
    strContains (mkUrl (Admin.init "http://h" "k").base_url ("/routes/" ++ "r1")) "?" = false := by
  have h := claim_c8 (Admin.init "http://h" "k") (const200 (Json.obj [])) (Json.obj [])
    "r1" "uri" 60
  have hb := h.2.2.2.2 (by decide)
  exact ⟨h.1.1, h.1.2, hb.1.1, hb.1.2, (hb.2 (by decide)).1.1, (hb.2 (by decide)).1.2.2⟩

theorem make_request_get_result_const200 (c : Admin) (j : Json) (ep : String) :
    (c.make_request (const200 j) "GET" ep none).result = Except.ok j := by
  rw [Admin.make_request_get c (const200 j) "GET" ep none rfl,
    finish_ok c (const200 j) _ ⟨200, "OK", "", some j⟩ j rfl (by simp) rfl]

theorem admin_list_generic (c : Admin) (xs : List Json) (ep : String) :
    listResult ((c.make_request (const200 (envelope xs)) "GET" ep none).result) =
      Except.ok (Json.arr xs) := by
  rw [make_request_get_result_const200, listResult_envelope]

/-- Counterexample to claim C1: a 404 response with body
`{"error_msg":"not found"}` surfaces as the connectivity error kind
(`ConnectionError`), not as a distinct HTTPStatusError kind, its message
does not carry the raw response body, and a 304 response — also outside
2xx — does not fail at all but is returned as a success. -/
theorem claim_c1_counterexample :
    (Admin.make_request (Admin.init "http://h" "k")
        (fun _ => TransportResult.resp
          ⟨404, "Not Found", "\x7b\"error_msg\":\"not found\"\x7d",
           some (Json.obj [("error_msg", Json.str "not found")])⟩)
        "GET" "/routes" none).result =
      Except.error (PyError.connectionError
        "Error connecting to APISIX: 404 Client Error: Not Found for url: http://h/routes") ∧
    strContains "Error connecting to APISIX: 404 Client Error: Not Found for url: http://h/routes"
      "\x7b\"error_msg\":\"not found\"\x7d" = false ∧
    (Admin.make_request (Admin.init "http://h" "k")
        (fun _ => TransportResult.resp ⟨304, "Not Modified", "\x7b\x7d", some (Json.obj [])⟩)
        "GET" "/routes" none).result = Except.ok (Json.obj []) := by
  refine ⟨rfl, by decide, rfl⟩

/-- Claim C1 as amended: for every `_make_request` invocation (Admin or
Control, any supported verb) whose HTTP response has a 4xx or 5xx
status, the call raises the connectivity-kind `ConnectionError` whose
message wraps the `HTTPError` string (status code, reason and URL, but
not the raw body); the response is not returned as a success. Statuses
in 1xx/3xx are not treated as errors by the code. -/
theorem claim_c1 (c : Admin) (c2 : Control) (r : HttpResponse)
    (method endpoint : String) (data : Option Json)
    (h4 : 400 ≤ r.status) (h6 : r.status < 600) :
    (pyUpper method ∈ (["GET", "POST", "PUT", "DELETE", "PATCH"] : List String) →
      (Admin.make_request c (fun _ => TransportResult.resp r) method endpoint data).result =
        Except.error (PyError.connectionError ("Error connecting to APISIX: " ++
          httpErrorString r.status r.reason (mkUrl c.base_url endpoint)))) ∧
    (pyUpper method ∈ (["GET", "POST", "PUT"] : List String) →
      (Control.make_request c2 (fun _ => TransportResult.resp r) method endpoint data).result =
        Except.error (PyError.connectionError ("Error connecting to APISIX: " ++
          httpErrorString r.status r.reason (mkUrl c2.base_url endpoint)))) := by
  constructor
  · intro h
    simp only [List.mem_cons, List.not_mem_nil, or_false] at h
    rcases h with h | h | h | h | h
    · rw [Admin.make_request_get c _ method endpoint data h,
        finish_status c _ _ r rfl h4 h6]
    · rw [Admin.make_request_post c _ method endpoint data h,
        finish_status c _ _ r rfl h4 h6]
    · rw [Admin.make_request_put c _ method endpoint data h,
        finish_status c _ _ r rfl h4 h6]
    · rw [Admin.make_request_delete c _ method endpoint data h,
        finish_status c _ _ r rfl h4 h6]
    · rw [Admin.make_request_patch c _ method endpoint data h,
        finish_status c _ _ r rfl h4 h6]
  · intro h
    simp only [List.mem_cons, List.not_mem_nil, or_false] at h
    rcases h with h | h | h
    · rw [control_mkreq_get c2 _ method endpoint data h,
        finish_status c2 _ _ r rfl h4 h6]
    · rw [control_mkreq_post c2 _ method endpoint data h,
        finish_status c2 _ _ r rfl h4 h6]
    · rw [control_mkreq_put c2 _ method endpoint data h,
        finish_status c2 _ _ r rfl h4 h6]

/-- Witness for the amended C1 at a concrete 500 response. -/
theorem claim_c1_witness :
    (Admin.make_request (Admin.init "http://h" "k")
        (fun _ => TransportResult.resp ⟨500, "Internal Server Error", "oops", none⟩)
        "PUT" "/routes/r1" (some (Json.obj []))).result =
      Except.error (PyError.connectionError ("Error connecting to APISIX: " ++
        httpErrorString 500 "Internal Server Error"
          (mkUrl (Admin.init "http://h" "k").base_url "/routes/r1"))) ∧
    (Control.make_request (Control.init "http://h" "k")
        (fun _ => TransportResult.resp ⟨500, "Internal Server Error", "oops", none⟩)
        "PUT" "/routes/r1" (some (Json.obj []))).result =
      Except.error (PyError.connectionError ("Error connecting to APISIX: " ++
        httpErrorString 500 "Internal Server Error"
          (mkUrl (Control.init "http://h" "k").base_url "/routes/r1"))) := by
  have h := claim_c1 (Admin.init "http://h" "k") (Control.init "http://h" "k")
    ⟨500, "Internal Server Error", "oops", none⟩ "PUT" "/routes/r1" (some (Json.obj []))
    (by decide) (by decide)
  exact ⟨h.1 (by decide), h.2 (by decide)⟩

/-- Counterexample to claim C2: with base URL `http://h/` and identifier
parameter `/r1`, `get_route` issues a request whose URL
`http://h/routes//r1` contains a double slash. -/
theorem claim_c2_counterexample :
    (Admin.get_route (Admin.init "http://h/" "k") (const200 (Json.obj [])) "/r1").issued =
      [⟨"GET", "http://h/routes//r1",
        [("Content-Type", "application/json"), ("X-API-KEY", "k")], none⟩] ∧
    strContains "http://h/routes//r1" "//" = true := by
  refine ⟨rfl, by decide⟩

/-- Claim C2 as amended: every supported-verb call issues exactly one
request whose URL is the trailing-slash-stripped base URL, a single
`/`, and the leading-slash-stripped endpoint, so no double slash arises
at the junction regardless of trailing slashes on the constructor's base
URL or leading slashes on the endpoint; identifier parameters are
interpolated verbatim, so a slash inside one (or the scheme's `//`)
still appears in the URL. -/
theorem claim_c2 (base api_key endpoint : String) (t : Transport) (method : String)
    (data : Option Json)
    (h : pyUpper method ∈ (["GET", "POST", "PUT", "DELETE", "PATCH"] : List String)) :
    ∃ req, (Admin.make_request (Admin.init base api_key) t method endpoint data).issued = [req] ∧
      req.verb = pyUpper method ∧
      req.url = rstripSlash base ++ "/" ++ lstripSlash endpoint ∧
      noTrailingSlash (rstripSlash base) ∧
      noLeadingSlash (lstripSlash endpoint) := by
  simp only [List.mem_cons, List.not_mem_nil, or_false] at h
  rcases h with h | h | h | h | h
  · refine ⟨⟨"GET", mkUrl (Admin.init base api_key).base_url endpoint,
      (Admin.init base api_key).headers, none⟩, ?_, h.symm, rfl,
      rstripSlash_noTrailingSlash base, lstripSlash_noLeadingSlash endpoint⟩
    rw [Admin.make_request_get _ t method endpoint data h]
    exact finish_issued _ t _
  · refine ⟨⟨"POST", mkUrl (Admin.init base api_key).base_url endpoint,
      (Admin.init base api_key).headers, data⟩, ?_, h.symm, rfl,
      rstripSlash_noTrailingSlash base, lstripSlash_noLeadingSlash endpoint⟩
    rw [Admin.make_request_post _ t method endpoint data h]
    exact finish_issued _ t _
  · refine ⟨⟨"PUT", mkUrl (Admin.init base api_key).base_url endpoint,
      (Admin.init base api_key).headers, data⟩, ?_, h.symm, rfl,
      rstripSlash_noTrailingSlash base, lstripSlash_noLeadingSlash endpoint⟩
    rw [Admin.make_request_put _ t method endpoint data h]
    exact finish_issued _ t _
  · refine ⟨⟨"DELETE", mkUrl (Admin.init base api_key).base_url endpoint,
      (Admin.init base api_key).headers, none⟩, ?_, h.symm, rfl,
      rstripSlash_noTrailingSlash base, lstripSlash_noLeadingSlash endpoint⟩
    rw [Admin.make_request_delete _ t method endpoint data h]
    exact finish_issued _ t _
  · refine ⟨⟨"PATCH", mkUrl (Admin.init base api_key).base_url endpoint,
      (Admin.init base api_key).headers, data⟩, ?_, h.symm, rfl,
      rstripSlash_noTrailingSlash base, lstripSlash_noLeadingSlash endpoint⟩
    rw [Admin.make_request_patch _ t method endpoint data h]
    exact finish_issued _ t _

/-- Witness for the amended C2 at a concrete slash-laden base URL. -/
theorem claim_c2_witness :
    ∃ req, (Admin.make_request (Admin.init "http://h///" "k") (const200 (Json.obj []))
        "get" "//routes" none).issued = [req] ∧
      req.verb = pyUpper "get" ∧
      req.url = rstripSlash "http://h///" ++ "/" ++ lstripSlash "//routes" ∧
      noTrailingSlash (rstripSlash "http://h///") ∧
      noLeadingSlash (lstripSlash "//routes") :=
  claim_c2 "http://h///" "k" "//routes" (const200 (Json.obj [])) "get" none (by decide)

/-- Counterexample to claim C3: on the standard
`{"node":{"nodes":[...]}}` envelope, `list_consumer_credentials` returns
the whole envelope object, not the inner list. -/
theorem claim_c3_counterexample :
    (Admin.list_consumer_credentials (Admin.init "http://h" "k")
        (const200 (envelope [Json.obj [("value", Json.str "secret")]])) "alice").result =
      Except.ok (envelope [Json.obj [("value", Json.str "secret")]]) ∧
    envelope [Json.obj [("value", Json.str "secret")]] ≠
      Json.arr [Json.obj [("value", Json.str "secret")]] := by
  refine ⟨rfl, fun h => Json.noConfusion h⟩

/-- Claim C3 as amended: the collection-list operations `list_routes`,
`list_services`, `list_consumers`, `list_upstreams`, `list_ssl`,
`list_global_rules`, `list_consumer_groups`, `list_plugin_configs`,
`list_plugins`, `list_stream_routes`, `list_secrets` and `list_protos`
unwrap the `{"node":{"nodes":[...]}}` envelope and return the inner
list, but `list_consumer_credentials` returns the parsed response body
unchanged, envelope included. -/
theorem claim_c3 (c : Admin) (xs : List Json) (username : String) :
    (Admin.list_routes c (const200 (envelope xs))).result = Except.ok (Json.arr xs) ∧
    (Admin.list_services c (const200 (envelope xs))).result = Except.ok (Json.arr xs) ∧
    (Admin.list_consumers c (const200 (envelope xs))).result = Except.ok (Json.arr xs) ∧
    (Admin.list_upstreams c (const200 (envelope xs))).result = Except.ok (Json.arr xs) ∧
    (Admin.list_ssl c (const200 (envelope xs))).result = Except.ok (Json.arr xs) ∧
    (Admin.list_global_rules c (const200 (envelope xs))).result = Except.ok (Json.arr xs) ∧
    (Admin.list_consumer_groups c (const200 (envelope xs))).result = Except.ok (Json.arr xs) ∧
    (Admin.list_plugin_configs c (const200 (envelope xs))).result = Except.ok (Json.arr xs) ∧
    (Admin.list_plugins c (const200 (envelope xs))).result = Except.ok (Json.arr xs) ∧
    (Admin.list_stream_routes c (const200 (envelope xs))).result = Except.ok (Json.arr xs) ∧
    (Admin.list_secrets c (const200 (envelope xs))).result = Except.ok (Json.arr xs) ∧
    (Admin.list_protos c (const200 (envelope xs))).result = Except.ok (Json.arr xs) ∧
    (Admin.list_consumer_credentials c (const200 (envelope xs)) username).result =
      Except.ok (envelope xs) := by
  refine ⟨admin_list_generic c xs "/routes", admin_list_generic c xs "/services",
    admin_list_generic c xs "/consumers", admin_list_generic c xs "/upstreams",
    admin_list_generic c xs "/ssl", admin_list_generic c xs "/global_rules",
    admin_list_generic c xs "/consumer_groups", admin_list_generic c xs "/plugin_configs",
    admin_list_generic c xs "/plugins/list", admin_list_generic c xs "/stream_routes",
    admin_list_generic c xs "/secrets", admin_list_generic c xs "/protos", ?_⟩
  exact make_request_get_result_const200 c (envelope xs) ("/consumers/" ++ username ++ "/credentials")

/-- Counterexample to claim C4: a transport failure with message
`timed out` at a GET on `/routes` is re-raised as
`ConnectionError("Error connecting to APISIX: timed out")`, whose
message contains neither the verb nor the target URL as context. -/
theorem claim_c4_counterexample :
    (Admin.make_request (Admin.init "http://h" "k") (fun _ => TransportResult.exn "timed out")
        "GET" "/routes" none).result =
      Except.error (PyError.connectionError "Error connecting to APISIX: timed out") ∧
    strContains "Error connecting to APISIX: timed out" "GET" = false ∧
    strContains "Error connecting to APISIX: timed out" (mkUrl "http://h" "/routes") = false := by
  refine ⟨rfl, by decide, by decide⟩

/-- Claim C4 as amended: every transport failure is caught and re-raised
as `ConnectionError` whose message is the fixed prefix
`Error connecting to APISIX: ` followed by the underlying transport
error's own string — the transport exception never escapes the client
boundary, but no target-URL or verb context is added by the client. -/
theorem claim_c4 (c : Admin) (c2 : Control) (method endpoint msg : String)
    (data : Option Json) :
    (pyUpper method ∈ (["GET", "POST", "PUT", "DELETE", "PATCH"] : List String) →
      (Admin.make_request c (fun _ => TransportResult.exn msg) method endpoint data).result =
        Except.error (PyError.connectionError ("Error connecting to APISIX: " ++ msg))) ∧
    (pyUpper method ∈ (["GET", "POST", "PUT"] : List String) →
      (Control.make_request c2 (fun _ => TransportResult.exn msg) method endpoint data).result =
        Except.error (PyError.connectionError ("Error connecting to APISIX: " ++ msg))) := by
  constructor
  · intro h
    simp only [List.mem_cons, List.not_mem_nil, or_false] at h
    rcases h with h | h | h | h | h
    · rw [Admin.make_request_get c _ method endpoint data h, finish_exn c _ _ msg rfl]
    · rw [Admin.make_request_post c _ method endpoint data h, finish_exn c _ _ msg rfl]
    · rw [Admin.make_request_put c _ method endpoint data h, finish_exn c _ _ msg rfl]
    · rw [Admin.make_request_delete c _ method endpoint data h, finish_exn c _ _ msg rfl]
    · rw [Admin.make_request_patch c _ method endpoint data h, finish_exn c _ _ msg rfl]
  · intro h
    simp only [List.mem_cons, List.not_mem_nil, or_false] at h
    rcases h with h | h | h
    · rw [control_mkreq_get c2 _ method endpoint data h, finish_exn c2 _ _ msg rfl]
    · rw [control_mkreq_post c2 _ method endpoint data h, finish_exn c2 _ _ msg rfl]
    · rw [control_mkreq_put c2 _ method endpoint data h, finish_exn c2 _ _ msg rfl]

/-- Witness for the amended C4 at a concrete DNS-style failure. -/
theorem claim_c4_witness :
    (Admin.make_request (Admin.init "http://unreachable" "k")
        (fun _ => TransportResult.exn "Failed to resolve host") "POST" "/routes"
        (some (Json.obj []))).result =
      Except.error (PyError.connectionError
        ("Error connecting to APISIX: " ++ "Failed to resolve host")) ∧
    (Control.make_request (Control.init "http://unreachable" "k")
        (fun _ => TransportResult.exn "Failed to resolve host") "POST" "/routes"
        (some (Json.obj []))).result =
      Except.error (PyError.connectionError
        ("Error connecting to APISIX: " ++ "Failed to resolve host")) := by
  have h := claim_c4 (Admin.init "http://unreachable" "k") (Control.init "http://unreachable" "k")
    "POST" "/routes" "Failed to resolve host" (some (Json.obj []))
  exact ⟨h.1 (by decide), h.2 (by decide)⟩

/-- Counterexample to claim C7: the `Control` dispatcher rejects PATCH
and DELETE with `ValueError` and issues no request, so the two clients
do not support the same verb set. -/
theorem claim_c7_counterexample :
    Control.make_request (Control.init "http://h" "k") (const200 (Json.obj [])) "PATCH"
        "/routes" (some (Json.obj [])) =
      ⟨Except.error (PyError.valueError ("Unsupported HTTP method: " ++ "PATCH")), [],
       Control.init "http://h" "k"⟩ ∧
    Control.make_request (Control.init "http://h" "k") (const200 (Json.obj [])) "DELETE"
        "/routes" none =
      ⟨Except.error (PyError.valueError ("Unsupported HTTP method: " ++ "DELETE")), [],
       Control.init "http://h" "k"⟩ := by
  refine ⟨rfl, rfl⟩

/-- Claim C7 as amended: the `Admin` dispatcher accepts every verb in
{GET, POST, PUT, PATCH, DELETE} and issues exactly one request for each,
but the `Control` dispatcher accepts only {GET, POST, PUT}; PATCH and
DELETE on `Control` fail with `ValueError` before any I/O. -/
theorem claim_c7 (c : Admin) (c2 : Control) (t : Transport) (v endpoint : String)
    (data : Option Json) :
    (v ∈ (["GET", "POST", "PUT", "PATCH", "DELETE"] : List String) →
      ∃ req, (Admin.make_request c t v endpoint data).issued = [req] ∧ req.verb = v) ∧
    (v ∈ (["GET", "POST", "PUT"] : List String) →
      ∃ req, (Control.make_request c2 t v endpoint data).issued = [req] ∧ req.verb = v) ∧
    (v ∈ (["PATCH", "DELETE"] : List String) →
      Control.make_request c2 t v endpoint data =
        ⟨Except.error (PyError.valueError ("Unsupported HTTP method: " ++ v)), [], c2⟩) := by
  refine ⟨?_, ?_, ?_⟩
  · intro h
    simp only [List.mem_cons, List.not_mem_nil, or_false] at h
    rcases h with rfl | rfl | rfl | rfl | rfl
    · exact ⟨_, by rw [Admin.make_request_get c t "GET" endpoint data rfl]
                   exact finish_issued c t _, rfl⟩
    · exact ⟨_, by rw [Admin.make_request_post c t "POST" endpoint data rfl]
                   exact finish_issued c t _, rfl⟩
    · exact ⟨_, by rw [Admin.make_request_put c t "PUT" endpoint data rfl]
                   exact finish_issued c t _, rfl⟩
    · exact ⟨_, by rw [Admin.make_request_patch c t "PATCH" endpoint data rfl]
                   exact finish_issued c t _, rfl⟩
    · exact ⟨_, by rw [Admin.make_request_delete c t "DELETE" endpoint data rfl]
                   exact finish_issued c t _, rfl⟩
  · intro h
    simp only [List.mem_cons, List.not_mem_nil, or_false] at h
    rcases h with rfl | rfl | rfl
    · exact ⟨_, by rw [control_mkreq_get c2 t "GET" endpoint data rfl]
                   exact finish_issued c2 t _, rfl⟩
    · exact ⟨_, by rw [control_mkreq_post c2 t "POST" endpoint data rfl]
                   exact finish_issued c2 t _, rfl⟩
    · exact ⟨_, by rw [control_mkreq_put c2 t "PUT" endpoint data rfl]
                   exact finish_issued c2 t _, rfl⟩
  · intro h
    simp only [List.mem_cons, List.not_mem_nil, or_false] at h
    rcases h with rfl | rfl
    · unfold Control.make_request
      rw [if_neg (by decide), if_neg (by decide), if_neg (by decide)]
    · unfold Control.make_request
      rw [if_neg (by decide), if_neg (by decide), if_neg (by decide)]

/-- Witness for the amended C7 with PATCH on both clients. -/
theorem claim_c7_witness :
    (∃ req, (Admin.make_request (Admin.init "http://h" "k") (const200 (Json.obj [])) "PATCH"
        "/routes/r1" (some (Json.obj []))).issued = [req] ∧ req.verb = "PATCH") ∧
    Control.make_request (Control.init "http://h" "k") (const200 (Json.obj [])) "PATCH"
        "/routes/r1" (some (Json.obj [])) =
      ⟨Except.error (PyError.valueError ("Unsupported HTTP method: " ++ "PATCH")), [],
       Control.init "http://h" "k"⟩ := by
  have h := claim_c7 (Admin.init "http://h" "k") (Control.init "http://h" "k")
    (const200 (Json.obj [])) "PATCH" "/routes/r1" (some (Json.obj []))
  exact ⟨h.1 (by decide), h.2.2 (by decide)⟩

/-- Claim C10: with verb GET or DELETE, `Admin._make_request` ignores
its `data` argument — the issued request carries no body and the
outcome is identical whether `data` is `None` or any dictionary. -/
theorem claim_c10 (c : Admin) (t : Transport) (method endpoint : String) (data : Option Json)
    (h : pyUpper method = "GET" ∨ pyUpper method = "DELETE") :
    Admin.make_request c t method endpoint data =
      Admin.make_request c t method endpoint none ∧
    (Admin.make_request c t method endpoint data).issued =
      [⟨pyUpper method, mkUrl c.base_url endpoint, c.headers, none⟩] := by
  rcases h with h | h
  · rw [Admin.make_request_get c t method endpoint data h,
      Admin.make_request_get c t method endpoint none h, h]
    exact ⟨rfl, finish_issued _ _ _⟩
  · rw [Admin.make_request_delete c t method endpoint data h,
      Admin.make_request_delete c t method endpoint none h, h]
    exact ⟨rfl, finish_issued _ _ _⟩

/-- Witness for C10 at a concrete GET call carrying a dictionary. -/
theorem claim_c10_witness :
    Admin.make_request (Admin.init "http://h" "k") (const200 (Json.obj [])) "get" "/routes"
        (some (Json.obj [("uri", Json.str "/foo")])) =
      Admin.make_request (Admin.init "http://h" "k") (const200 (Json.obj [])) "get" "/routes"
        none ∧
    (Admin.make_request (Admin.init "http://h" "k") (const200 (Json.obj [])) "get" "/routes"
        (some (Json.obj [("uri", Json.str "/foo")]))).issued =
      [⟨pyUpper "get", mkUrl (Admin.init "http://h" "k").base_url "/routes",
        (Admin.init "http://h" "k").headers, none⟩] :=
  claim_c10 (Admin.init "http://h" "k") (const200 (Json.obj [])) "get" "/routes"
    (some (Json.obj [("uri", Json.str "/foo")])) (Or.inl rfl)

end Apx
